import Mathlib

/-!
Verification of the SmartDebugAssistant backend (backend/main.py) against its
specification.  The Python module is shallowly embedded below: the pattern
catalog, the concrete regular expressions it uses, the two context heuristics,
the in-memory error history, and the request handler are translated into
executable Lean definitions.  The external generative-AI service is out of
scope of the repository (an opaque fallible collaborator); every call site
receives its outcome as an explicit parameter (an Except or Option value,
where the error case stands for a raised exception, covering network
failures, malformed JSON and missing fields alike).  Float confidence
literals of the source are stored in hundredths as naturals (0.95 becomes
95): the source never computes with them, it only stores and compares them.
-/

/-! ## Character classes and low-level string utilities

The source uses Python `re` with the classes `\w`, `\d`, `\s` and the
any-character dot (which does not match a newline).  Inputs are modelled as
ASCII character lists.
-/

def isWordChar (c : Char) : Bool :=
  c.isAlpha || c.isDigit || c == '_'

def isDigitChar (c : Char) : Bool :=
  c.isDigit

def isSpaceChar (c : Char) : Bool :=
  c == ' ' || c == '\t' || c == '\n' || c == '\r' || c == '\x0b' || c == '\x0c'

/-- Python str.split(sep) for a one-character separator: splitting the empty
string yields one empty piece. -/
def splitOnChar (sep : Char) : List Char → List (List Char)
  | [] => [[]]
  | c :: cs =>
    let r := splitOnChar sep cs
    if c == sep then [] :: r
    else
      match r with
      | [] => [[c]]
      | h :: t => (c :: h) :: t

/-- Python int() on a string of decimal digits. -/
def natOfDigits (s : List Char) : Nat :=
  s.foldl (fun n c => n * 10 + (c.toNat - 48)) 0

/-- Python str.join: joinSep sep [a, b, c] = a ++ sep ++ b ++ sep ++ c. -/
def joinSep (sep : String) : List String → String
  | [] => ""
  | [x] => x
  | x :: xs => x ++ sep ++ joinSep sep xs

/-- Remove a literal prefix, returning the remainder when it is present. -/
def stripLit : List Char → List Char → Option (List Char)
  | [], s => some s
  | _ :: _, [] => none
  | p :: ps, c :: cs => if p == c then stripLit ps cs else none

/-- All ways to split a string into a run of p-characters followed by the
remainder, longest run first; this is the backtracking order of a greedy
repetition in Python re. -/
def runSplits (p : Char → Bool) : List Char → List (List Char × List Char)
  | [] => [([], [])]
  | c :: cs =>
    if p c then
      ((runSplits p cs).map (fun pr => (c :: pr.1, pr.2))) ++ [([], c :: cs)]
    else
      [([], c :: cs)]

/-! ## A matcher for the concrete regular expressions of the source

Every regular expression appearing in backend/main.py is a sequence of the
following tokens: a literal, a capturing greedy word run (\w+), a capturing
greedy digit run (\d+), a non-capturing greedy whitespace run (\s*), a
capturing alternation of literals, and a capturing lazy run of non-newline
characters ((.*?)).  The matcher below implements Python re backtracking
for such sequences: greedy runs try longest first, lazy runs shortest
first, alternations left to right, and the first overall success wins.
-/

inductive Tok where
  | lit : String → Tok
  | wordPlus : Tok
  | digitPlus : Tok
  | spaceStar : Tok
  | altLit : List String → Tok
  | lazyStar : Tok
deriving DecidableEq

/-- Try to match a token sequence at the start of the input; on success
return the list of captured groups and the remainder after the match. -/
def matchToks (toks : List Tok) (s : List Char) : Option (List String × List Char) :=
  match toks with
  | [] => some ([], s)
  | t :: rest =>
    match t with
    | Tok.lit l =>
      match stripLit l.toList s with
      | some s2 => matchToks rest s2
      | none => none
    | Tok.wordPlus =>
      ((runSplits isWordChar s).filter (fun pr => !pr.1.isEmpty)).findSome?
        (fun pr => (matchToks rest pr.2).map (fun r => (String.mk pr.1 :: r.1, r.2)))
    | Tok.digitPlus =>
      ((runSplits isDigitChar s).filter (fun pr => !pr.1.isEmpty)).findSome?
        (fun pr => (matchToks rest pr.2).map (fun r => (String.mk pr.1 :: r.1, r.2)))
    | Tok.spaceStar =>
      (runSplits isSpaceChar s).findSome? (fun pr => matchToks rest pr.2)
    | Tok.altLit alts =>
      alts.findSome? (fun a =>
        match stripLit a.toList s with
        | some s2 => (matchToks rest s2).map (fun r => (a :: r.1, r.2))
        | none => none)
    | Tok.lazyStar =>
      ((runSplits (fun c => !(c == '\n')) s).reverse).findSome?
        (fun pr => (matchToks rest pr.2).map (fun r => (String.mk pr.1 :: r.1, r.2)))

/-- Python re.search: try the pattern at every position, leftmost first;
return the captured groups of the first match. -/
def searchCaps (toks : List Tok) : List Char → Option (List String)
  | [] => (matchToks toks []).map Prod.fst
  | c :: rest =>
    match matchToks toks (c :: rest) with
    | some r => some r.1
    | none => searchCaps toks rest

/-- Leftmost match together with the remainder of the input after it. -/
def findFirst (toks : List Tok) : List Char → Option (List String × List Char)
  | [] => matchToks toks []
  | c :: rest =>
    match matchToks toks (c :: rest) with
    | some r => some r
    | none => findFirst toks rest

def findallAux (toks : List Tok) : Nat → List Char → List (List String)
  | 0, _ => []
  | Nat.succ fuel, s =>
    match findFirst toks s with
    | none => []
    | some (caps, rest) => caps :: findallAux toks fuel rest

/-- Python re.findall: the captured groups of all non-overlapping matches,
left to right.  (All patterns of the source match at least one character,
so a fuel of length + 1 suffices.) -/
def findall (toks : List Tok) (s : String) : List (List String) :=
  findallAux toks (s.toList.length + 1) s.toList

def patMatches (toks : List Tok) (msg : String) : Bool :=
  (searchCaps toks msg.toList).isSome

/-! ## Data model (the pydantic models of the source) -/

structure Solution where
  fix : String
  explanation : String
  /-- confidence in hundredths: the source stores the float literal 0.95 as
  confidence 95, 0.9 as 90, and so on. -/
  confidence : Nat
  code_example : String
deriving DecidableEq

structure LearningResource where
  title : String
  description : String
  url : Option String
  resource_type : String
deriving DecidableEq

structure ErrorStatistics where
  frequency : Option Nat
  common_contexts : Option (List String)
  related_errors : Option (List String)
  last_occurrence : Option String
deriving DecidableEq

structure ErrorResponse where
  error_type : String
  solutions : List Solution
  concepts : List String
  learning_resources : Option (List LearningResource)
  statistics : Option ErrorStatistics
deriving DecidableEq

structure ErrorInput where
  error_message : String
  code_context : Option String
  language : String
  project_id : Option String
deriving DecidableEq

structure HTTPException where
  status_code : Nat
  detail : String
deriving DecidableEq

/-! ## The pattern catalog (ERROR_PATTERNS)

A Python dict preserves insertion order, so the catalog is an ordered list;
each regular expression is transcribed into the token language above.
-/

structure PatternEntry where
  error_type : String
  pattern : List Tok
  solutions : List Solution
  concepts : List String
deriving DecidableEq

def ERROR_PATTERNS : List PatternEntry :=
  [ { error_type := "NameError",
      pattern := [Tok.lit ("name \x27"), Tok.wordPlus, Tok.lit ("\x27 is not defined")],
      solutions :=
        [ { fix := "Define the variable before using it",
            explanation := "This error occurs when you try to use a variable that hasn\x27t been defined yet.",
            confidence := 90,
            code_example := "\n# Wrong\nprint(undefined_variable)\n\n# Correct\nundefined_variable = \x27some value\x27\nprint(undefined_variable)\n" } ],
      concepts := ["variable scope", "variable declaration"] },
    { error_type := "TypeError",
      pattern := [Tok.lit ("unsupported operand type(s) for "), Tok.altLit ["+", "-", "*", "/"],
                  Tok.lit (": \x27"), Tok.wordPlus, Tok.lit ("\x27 and \x27"), Tok.wordPlus, Tok.lit ("\x27")],
      solutions :=
        [ { fix := "Convert variables to compatible types before operation",
            explanation := "This error occurs when you try to perform operations on incompatible types.",
            confidence := 85,
            code_example := "\n# Wrong\nresult = \x22123\x22 + 456\n\n# Correct\nresult = int(\x22123\x22) + 456  # If you want a number\n# OR\nresult = \x22123\x22 + str(456)  # If you want a string\n" } ],
      concepts := ["type conversion", "operators"] },
    { error_type := "IndexError",
      pattern := [Tok.lit ("list index out of range")],
      solutions :=
        [ { fix := "Check that the index is within the bounds of the list",
            explanation := "This error occurs when you try to access an index that doesn\x27t exist in the list.",
            confidence := 95,
            code_example := "\n# Wrong\nmy_list = [1, 2, 3]\nprint(my_list[3])  # Index 3 doesn\x27t exist\n\n# Correct\nmy_list = [1, 2, 3]\nif len(my_list) > 3:\n    print(my_list[3])\nelse:\n    print(\x22Index out of range\x22)\n" } ],
      concepts := ["lists", "indexing", "bounds checking"] },
    { error_type := "KeyError",
      pattern := [Tok.lit ("KeyError: \x27"), Tok.wordPlus, Tok.lit ("\x27")],
      solutions :=
        [ { fix := "Check if the key exists before accessing it",
            explanation := "This error occurs when you try to access a dictionary with a key that doesn\x27t exist.",
            confidence := 90,
            code_example := "\n# Wrong\nmy_dict = \x7b\x27a\x27: 1, \x27b\x27: 2\x7d\nprint(my_dict[\x27c\x27])\n\n# Correct\nmy_dict = \x7b\x27a\x27: 1, \x27b\x27: 2\x7d\nif \x27c\x27 in my_dict:\n    print(my_dict[\x27c\x27])\nelse:\n    print(\x22Key doesn\x27t exist\x22)\n    \n# Alternative using .get()\nprint(my_dict.get(\x27c\x27, \x27Key doesn\x27t exist\x27))\n" } ],
      concepts := ["dictionaries", "key validation", "default values"] },
    { error_type := "SyntaxError",
      pattern := [Tok.lit ("SyntaxError: invalid syntax")],
      solutions :=
        [ { fix := "Check your code for syntax errors",
            explanation := "This generic syntax error occurs when Python can\x27t parse your code.",
            confidence := 70,
            code_example := "\n# Common syntax errors:\n\n# 1. Missing closing parenthesis\nprint(\x22Hello\x22\n\n# 2. Missing colons after if/for/while statements\nif x > 5\n    print(x)\n\n# 3. Incorrect indentation\nif x > 5:\nprint(x)\n" } ],
      concepts := ["syntax", "code structure", "indentation"] },
    { error_type := "IndentationError",
      pattern := [Tok.lit ("IndentationError: "), Tok.altLit ["unexpected indent", "expected an indented block"]],
      solutions :=
        [ { fix := "Fix your code\x27s indentation",
            explanation := "This error occurs when your code has inconsistent indentation.",
            confidence := 90,
            code_example := "\n# Wrong\nif x > 5:\nprint(\x22x is greater than 5\x22)  # Missing indentation\n\n# Correct\nif x > 5:\n    print(\x22x is greater than 5\x22)  # Properly indented\n" } ],
      concepts := ["indentation", "code blocks", "Python syntax"] },
    { error_type := "ImportError",
      pattern := [Tok.lit ("ImportError: No module named \x27"), Tok.wordPlus, Tok.lit ("\x27")],
      solutions :=
        [ { fix := "Install the missing module or check the import statement",
            explanation := "This error occurs when Python can\x27t find the module you\x27re trying to import.",
            confidence := 85,
            code_example := "\n# Error\nimport non_existent_module\n\n# Fix: Install the module\n# pip install module_name\n\n# Or check if you misspelled the module name\nimport os  # instead of \x27Os\x27 or \x27OS\x27\n" } ],
      concepts := ["imports", "modules", "package management"] },
    { error_type := "AttributeError",
      pattern := [Tok.lit ("AttributeError: \x27"), Tok.wordPlus,
                  Tok.lit ("\x27 object has no attribute \x27"), Tok.wordPlus, Tok.lit ("\x27")],
      solutions :=
        [ { fix := "Check if the object has the attribute you\x27re trying to access",
            explanation := "This error occurs when you try to access an attribute or method that doesn\x27t exist for that object.",
            confidence := 85,
            code_example := "\n# Wrong\nx = 5\nx.append(10)  # integers don\x27t have an append method\n\n# Correct\n# Check the object type first\nx = 5\nif hasattr(x, \x27append\x27):\n    x.append(10)\nelse:\n    print(\x22This object doesn\x27t have an append method\x22)\n" } ],
      concepts := ["object attributes", "methods", "type checking"] },
    { error_type := "ZeroDivisionError",
      pattern := [Tok.lit ("ZeroDivisionError: division by zero")],
      solutions :=
        [ { fix := "Check for zero before dividing",
            explanation := "This error occurs when you try to divide by zero.",
            confidence := 95,
            code_example := "\n# Wrong\nx = 10 / 0\n\n# Correct\ndenominator = 0\nif denominator != 0:\n    result = 10 / denominator\nelse:\n    result = \x22Cannot divide by zero\x22\n" } ],
      concepts := ["division", "error checking", "defensive programming"] },
    { error_type := "ValueError",
      pattern := [Tok.lit ("ValueError: invalid literal for int() with base 10: \x27"), Tok.wordPlus, Tok.lit ("\x27")],
      solutions :=
        [ { fix := "Ensure the string can be converted to an integer",
            explanation := "This error occurs when you try to convert a string to an integer, but the string doesn\x27t represent a valid integer.",
            confidence := 90,
            code_example := "\n# Wrong\nint(\x22abc\x22)\n\n# Correct\nuser_input = \x22abc\x22\ntry:\n    number = int(user_input)\nexcept ValueError:\n    print(\x22Input must be a valid integer\x22)\n    number = 0  # default value\n" } ],
      concepts := ["type conversion", "input validation", "exception handling"] } ]

/-- The linear scan of analyze_error: first catalog entry whose regular
expression matches anywhere in the error message. -/
def matchCatalog (msg : String) : Option PatternEntry :=
  ERROR_PATTERNS.find? (fun e => patMatches e.pattern msg)

/-! ## Context heuristics (analyze_code_context)

Python truthiness: an optional string argument is truthy when it is present
and non-empty.
-/

def strTruthy : Option String → Bool
  | none => false
  | some s => !(s == "")

structure ContextAnalysis where
  specific_issue : Option String
  specific_fix : Option String
deriving DecidableEq

/-- The candidate identifier set of the NameError heuristic: all word-runs
of all lines of the snippet, collected into a set.  The source uses a
Python set, whose iteration order is unspecified; the model fixes the
first-occurrence order. -/
def all_variables (ctx : String) : List String :=
  (splitOnChar '\n' ctx.toList).foldl
    (fun acc line =>
      ((findall [Tok.wordPlus] (String.mk line)).map (fun caps => caps.headD "")).foldl
        (fun acc2 v => if v ∈ acc2 then acc2 else acc2 ++ [v]) acc)
    []

/-- differences = sum(1 for a, b in zip(var, undefined_var) if a != b):
positional mismatches over the zipped (common-prefix) part only. -/
def char_differences (var undefined_var : String) : Nat :=
  ((var.toList.zip undefined_var.toList).filter (fun p => !(p.1 == p.2))).length

/-- The similar-variable list of the NameError heuristic. -/
def similar_vars (ctx undefined_var : String) : List String :=
  (all_variables ctx).filter (fun v =>
    (!(v == undefined_var))
      && (decide (((v.length : Int) - (undefined_var.length : Int)).natAbs ≤ 2))
      && (decide (char_differences v undefined_var ≤ 2)))

/-- Group 1 of re.search for the pattern matching a NameError message. -/
def undefined_var_search (msg : String) : Option String :=
  (searchCaps [Tok.lit ("name \x27"), Tok.wordPlus, Tok.lit ("\x27 is not defined")] msg.toList).map
    (fun caps => caps.headD "")

/-- findall of the list-declaration pattern (\w+)\s*=\s*\[(.*?)\]:
pairs of list name and bracket text. -/
def list_matches (ctx : String) : List (String × String) :=
  (findall [Tok.wordPlus, Tok.spaceStar, Tok.lit ("="), Tok.spaceStar,
            Tok.lit ("["), Tok.lazyStar, Tok.lit ("]")] ctx).map
    (fun caps => (caps.headD "", caps.getD 1 ""))

/-- findall of name\[(\d+)\] over the snippet: the literal integer
subscripts of the given list name. -/
def index_matches (list_name : String) (ctx : String) : List Nat :=
  (findall [Tok.lit list_name, Tok.lit ("["), Tok.digitPlus, Tok.lit ("]")] ctx).map
    (fun caps => natOfDigits (caps.headD "").toList)

/-- items = list_content.split(','); list_length = len(items). -/
def list_length_estimate (list_content : String) : Nat :=
  (splitOnChar ',' list_content.toList).length

/-- The analysis record written by an offending subscript. -/
def indexIssue (list_name : String) (index list_length : Nat) : ContextAnalysis :=
  { specific_issue := some ("Index " ++ toString index ++ " is out of range for list \x27" ++ list_name ++ "\x27"),
    specific_fix := some ("The list \x27" ++ list_name ++ "\x27 appears to have " ++ toString list_length
      ++ " items (indices 0-" ++ toString (list_length - 1) ++ ")") }

/-- Inner loop of the IndexError heuristic: each subscript of one declared
list, overwriting the analysis whenever index >= list_length. -/
def indexFoldOne (ctx : String) (ca : ContextAnalysis) (p : String × String) : ContextAnalysis :=
  (index_matches p.1 ctx).foldl
    (fun ca2 index =>
      if list_length_estimate p.2 ≤ index then indexIssue p.1 index (list_length_estimate p.2) else ca2)
    ca

/-- The IndexError branch of analyze_code_context. -/
def indexContextAnalysis (ctx : String) : ContextAnalysis :=
  (list_matches ctx).foldl (indexFoldOne ctx) { specific_issue := none, specific_fix := none }

/-- analyze_code_context of the source: None when the snippet is falsy,
otherwise an analysis record whose fields are filled only by the NameError
and IndexError branches. -/
def analyze_code_context (error_type error_message : String) (code_context : Option String) :
    Option ContextAnalysis :=
  match code_context with
  | none => none
  | some ctx =>
    if ctx == "" then none
    else if error_type == "NameError" then
      match undefined_var_search error_message with
      | some undefined_var =>
        let sims := similar_vars ctx undefined_var
        if sims.isEmpty then some { specific_issue := none, specific_fix := none }
        else some
          { specific_issue := some ("You might have a typo in variable name \x27" ++ undefined_var ++ "\x27"),
            specific_fix := some ("Did you mean \x27" ++ sims.headD "" ++ "\x27? Similar variables found: "
              ++ joinSep (", ") sims) }
      | none => some { specific_issue := none, specific_fix := none }
    else if error_type == "IndexError" then
      some (indexContextAnalysis ctx)
    else
      some { specific_issue := none, specific_fix := none }

/-! ## History store (ERROR_HISTORY) and analyze_error_patterns -/

structure HistoryRecord where
  timestamp : String
  error_message : String
  code_context : Option String
deriving DecidableEq

/-- ERROR_HISTORY, keyed project identifier then error type; a missing key
reads as the empty list (Python dict .get default). -/
abbrev Store := String → String → List HistoryRecord

def emptyStore : Store := fun _ _ => []

def appendRecord (store : Store) (pid etype : String) (r : HistoryRecord) : Store :=
  fun p e => if p == pid && e == etype then store p e ++ [r] else store p e

/-- analyze_error_patterns: append the occurrence when the project id is
truthy, then compute statistics from the post-append history; the deeper
AI insight only runs when the computed frequency exceeds 1, and its
outcome arrives as an Option pair (none standing for a raised exception,
which the source swallows). -/
def analyze_error_patterns (store : Store) (error_type error_message : String)
    (code_context : Option String) (project_id : Option String) (now : String)
    (aiInsight : Option (List String × List String)) : Store × ErrorStatistics :=
  match project_id with
  | none => (store, { frequency := none, common_contexts := none,
                      related_errors := none, last_occurrence := none })
  | some pid =>
    if pid == "" then
      (store, { frequency := none, common_contexts := none,
                related_errors := none, last_occurrence := none })
    else
      let store2 := appendRecord store pid error_type
        { timestamp := now, error_message := error_message, code_context := code_context }
      let hist := store2 pid error_type
      let freq := hist.length
      let lastOcc : Option String :=
        if 1 < freq then (hist.get? (freq - 2)).map (fun r => r.timestamp) else none
      let withAI : Option (List String × List String) :=
        if 1 < freq then aiInsight else none
      (store2,
       { frequency := some freq,
         common_contexts := withAI.map (fun a => a.1),
         related_errors := withAI.map (fun a => a.2),
         last_occurrence := lastOcc })

/-! ## AI augmentation and the request handler -/

/-- setup_gemini: raises when the GEMINI_API_KEY environment value is
absent or empty. -/
def setup_gemini (env_gemini_api_key : Option String) : Except String Unit :=
  match env_gemini_api_key with
  | none => Except.error ("GEMINI_API_KEY environment variable not set")
  | some k =>
    if k == "" then Except.error ("GEMINI_API_KEY environment variable not set")
    else Except.ok ()

/-- get_learning_resources: the external call, the fence-stripping, the JSON
decoding and the field validation all live inside one try block, so their
combined outcome is a single Except value; on success the first three
resources are kept, on any exception three fixed fallback resources built
from the error type and the first concept are returned. -/
def get_learning_resources (aiResources : Except Unit (List LearningResource))
    (error_type : String) (concepts : List String) : List LearningResource :=
  match aiResources with
  | Except.ok resources => resources.take 3
  | Except.error _ =>
    [ { title := "Understanding " ++ error_type ++ " in Python",
        description := "Learn how to debug and prevent " ++ error_type ++ " errors",
        url := none, resource_type := "article" },
      { title := "Common causes of " ++ error_type,
        description := "Explore the most frequent mistakes that lead to " ++ error_type,
        url := none, resource_type := "tutorial" },
      { title := "Best practices to avoid " ++ concepts.headD "errors",
        description := "Preventive techniques for writing more robust code",
        url := none, resource_type := "guide" } ]

/-- analyze_with_gemini: setup_gemini is called first inside the try block;
when it raises, the except branch returns the fallback response (one
generic resource, empty statistics) without touching the history; when it
succeeds, the two augmentation calls run and never raise. -/
def analyze_with_gemini (env_gemini_api_key : Option String)
    (aiResources : Except Unit (List LearningResource))
    (aiInsight : Option (List String × List String))
    (store : Store) (error_input : ErrorInput)
    (error_type : String) (solutions : List Solution) (concepts : List String)
    (now : String) : ErrorResponse × Store :=
  match setup_gemini env_gemini_api_key with
  | Except.ok _ =>
    let lr := get_learning_resources aiResources error_type concepts
    let r := analyze_error_patterns store error_type error_input.error_message
      error_input.code_context error_input.project_id now aiInsight
    ({ error_type := error_type, solutions := solutions, concepts := concepts,
       learning_resources := some lr, statistics := some r.2 }, r.1)
  | Except.error _ =>
    ({ error_type := error_type, solutions := solutions, concepts := concepts,
       learning_resources := some
         [ { title := "Understanding " ++ error_type,
             description := "Learn about common " ++ error_type ++ " issues",
             url := none, resource_type := "guide" } ],
       statistics := some { frequency := none, common_contexts := none,
                            related_errors := none, last_occurrence := none } }, store)

/-- Parsed outcome of the AI classification prompt of the no-match path
(error type, solutions and concepts extracted from the JSON answer). -/
structure ClassifyResult where
  error_type : String
  solutions : List Solution
  concepts : List String
deriving DecidableEq

/-- The solutions list assembled by the matched branch of analyze_error:
the canned solutions of the entry, with a context-specific solution of
confidence 0.95 inserted at the front when the snippet is truthy and the
heuristic reports a specific issue. -/
def handler_solutions (entry : PatternEntry) (error_input : ErrorInput) : List Solution :=
  if strTruthy error_input.code_context then
    match analyze_code_context entry.error_type error_input.error_message error_input.code_context with
    | some ca =>
      match ca.specific_issue with
      | some issue =>
        { fix := ca.specific_fix.getD "",
          explanation := issue,
          confidence := 95,
          code_example := "# Based on your specific code:\n" ++ error_input.code_context.getD "" }
          :: entry.solutions
      | none => entry.solutions
    | none => entry.solutions
  else entry.solutions

/-- The POST /analyze_error handler.  The classification oracle stands for
the whole no-match try block after setup_gemini: the model call, the fence
stripping, the JSON decoding and the conversion to model objects; its
error case is any raised exception there. -/
def analyze_error (env_gemini_api_key : Option String)
    (aiClassify : Except Unit ClassifyResult)
    (aiResources : Except Unit (List LearningResource))
    (aiInsight : Option (List String × List String))
    (store : Store) (error_input : ErrorInput) (now : String) :
    Except HTTPException (ErrorResponse × Store) :=
  match matchCatalog error_input.error_message with
  | some entry =>
    Except.ok (analyze_with_gemini env_gemini_api_key aiResources aiInsight store error_input
      entry.error_type (handler_solutions entry error_input) entry.concepts now)
  | none =>
    match setup_gemini env_gemini_api_key with
    | Except.error _ =>
      Except.error { status_code := 404,
                     detail := "Error pattern not recognized and failed to analyze with Gemini" }
    | Except.ok _ =>
      match aiClassify with
      | Except.error _ =>
        Except.error { status_code := 404,
                       detail := "Error pattern not recognized and failed to analyze with Gemini" }
      | Except.ok cr =>
        Except.ok (analyze_with_gemini env_gemini_api_key aiResources aiInsight store error_input
          cr.error_type cr.solutions cr.concepts now)

/-- GET /supported_languages. -/
def get_supported_languages : List String :=
  ["python", "javascript", "java", "csharp"]

/-! ## Helper lemmas -/

/-- find? returns the element at the least satisfying index. -/
theorem find_first_index {α : Type} (p : α → Bool) (l : List α) :
    ∀ (i : Nat) (hi : i < l.length), p (l.get ⟨i, hi⟩) = true →
      ∃ k, ∃ hk : k < l.length, k ≤ i ∧ l.find? p = some (l.get ⟨k, hk⟩) ∧
        p (l.get ⟨k, hk⟩) = true ∧
        ∀ m (hm : m < l.length), m < k → p (l.get ⟨m, hm⟩) = false := by
  induction l with
  | nil => intro i hi; simp at hi
  | cons a as ih =>
    intro i hi hp
    by_cases ha : p a = true
    · refine ⟨0, Nat.succ_pos _, Nat.zero_le _, ?_, ha, ?_⟩
      · rw [List.find?_cons_of_pos _ ha]
        rfl
      · intro m hm hlt; omega
    · have ha2 : p a = false := by
        cases hpa : p a
        · rfl
        · exact absurd hpa ha
      cases i with
      | zero => exact absurd hp ha
      | succ i2 =>
        have hi2 : i2 < as.length := Nat.lt_of_succ_lt_succ hi
        obtain ⟨k, hk, hki, hfind, hpk, hmin⟩ := ih i2 hi2 hp
        refine ⟨k + 1, Nat.succ_lt_succ hk, Nat.succ_le_succ hki, ?_, hpk, ?_⟩
        · rw [List.find?_cons_of_neg _ ha]; exact hfind
        · intro m hm hlt
          cases m with
          | zero => exact ha2
          | succ m2 => exact hmin m2 (Nat.lt_of_succ_lt_succ hm) (Nat.lt_of_succ_lt_succ hlt)

/-- The response of analyze_with_gemini carries through the error type,
solutions and concepts it was given, in the success and the fallback
branch alike. -/
theorem analyze_with_gemini_fields (env : Option String)
    (aiR : Except Unit (List LearningResource)) (aiI : Option (List String × List String))
    (store : Store) (input : ErrorInput) (etype : String) (sols : List Solution)
    (concepts : List String) (now : String) :
    (analyze_with_gemini env aiR aiI store input etype sols concepts now).1.error_type = etype ∧
    (analyze_with_gemini env aiR aiI store input etype sols concepts now).1.solutions = sols ∧
    (analyze_with_gemini env aiR aiI store input etype sols concepts now).1.concepts = concepts := by
  cases hsg : setup_gemini env with
  | error e => simp [analyze_with_gemini, hsg]
  | ok u => simp [analyze_with_gemini, hsg]

/-- Every catalog entry ships at least one canned solution. -/
theorem ERROR_PATTERNS_solutions_ne_nil : ∀ e ∈ ERROR_PATTERNS, e.solutions ≠ [] := by decide

theorem handler_solutions_ne_nil (entry : PatternEntry) (input : ErrorInput)
    (h : entry.solutions ≠ []) : handler_solutions entry input ≠ [] := by
  unfold handler_solutions
  split
  · split
    · split
      · exact List.cons_ne_nil _ _
      · exact h
    · exact h
  · exact h

theorem handler_solutions_insert (entry : PatternEntry) (input : ErrorInput)
    (ca : ContextAnalysis) (issue : String)
    (hct : strTruthy input.code_context = true)
    (hca : analyze_code_context entry.error_type input.error_message input.code_context = some ca)
    (hissue : ca.specific_issue = some issue) :
    handler_solutions entry input =
      { fix := ca.specific_fix.getD "", explanation := issue, confidence := 95,
        code_example := "# Based on your specific code:\n" ++ input.code_context.getD "" }
        :: entry.solutions := by
  simp [handler_solutions, hct, hca, hissue]

/-! ## C1 -/

/-- C1: when an error message matches the regular expressions of two or more
catalog entries, the handler succeeds and returns the error-type label of the
entry at the least matching index in table-declaration order; matching is the
unanchored case-sensitive search patMatches, and no entry before that index
matches at all (no scoring, no multiple-match resolution). -/
theorem C1_catalog_precedence
    (env : Option String) (aiC : Except Unit ClassifyResult)
    (aiR : Except Unit (List LearningResource)) (aiI : Option (List String × List String))
    (store : Store) (input : ErrorInput) (now : String)
    (i j : Nat) (hi : i < ERROR_PATTERNS.length) (hj : j < ERROR_PATTERNS.length) (hij : i < j)
    (hmi : patMatches (ERROR_PATTERNS.get ⟨i, hi⟩).pattern input.error_message = true)
    (hmj : patMatches (ERROR_PATTERNS.get ⟨j, hj⟩).pattern input.error_message = true) :
    ∃ k, ∃ hk : k < ERROR_PATTERNS.length, k ≤ i ∧
      patMatches (ERROR_PATTERNS.get ⟨k, hk⟩).pattern input.error_message = true ∧
      (∀ m (hm : m < ERROR_PATTERNS.length), m < k →
        patMatches (ERROR_PATTERNS.get ⟨m, hm⟩).pattern input.error_message = false) ∧
      ∃ r : ErrorResponse × Store,
        analyze_error env aiC aiR aiI store input now = Except.ok r ∧
        r.1.error_type = (ERROR_PATTERNS.get ⟨k, hk⟩).error_type := by
  obtain ⟨k, hk, hki, hfind, hpk, hmin⟩ :=
    find_first_index (fun e => patMatches e.pattern input.error_message) ERROR_PATTERNS i hi hmi
  refine ⟨k, hk, hki, hpk, hmin, ?_⟩
  have hcat : matchCatalog input.error_message = some (ERROR_PATTERNS.get ⟨k, hk⟩) := hfind
  refine ⟨analyze_with_gemini env aiR aiI store input (ERROR_PATTERNS.get ⟨k, hk⟩).error_type
    (handler_solutions (ERROR_PATTERNS.get ⟨k, hk⟩) input) (ERROR_PATTERNS.get ⟨k, hk⟩).concepts now,
    ?_, ?_⟩
  · simp [analyze_error, hcat]
  · exact (analyze_with_gemini_fields env aiR aiI store input _ _ _ now).1

/-- C1 witness: a message matching both the NameError entry (index 0) and the
KeyError entry (index 3), neither match at position 0 of the message, yields
the first-declared type NameError. -/
theorem C1_catalog_precedence_witness :
    ∃ r : ErrorResponse × Store,
      analyze_error none (Except.error ()) (Except.error ()) none emptyStore
        { error_message := "Oops: name \x27x\x27 is not defined and KeyError: \x27k\x27",
          code_context := none, language := "python", project_id := none } "t" = Except.ok r ∧
      r.1.error_type = "NameError" := by
  obtain ⟨k, hk, hki, hpk, hmin, r, hr, het⟩ :=
    C1_catalog_precedence none (Except.error ()) (Except.error ()) none emptyStore
      { error_message := "Oops: name \x27x\x27 is not defined and KeyError: \x27k\x27",
        code_context := none, language := "python", project_id := none } "t"
      0 3 (by decide) (by decide) (by decide) (by decide) (by decide)
  have hk0 : k = 0 := Nat.le_zero.mp hki
  subst hk0
  refine ⟨r, hr, ?_⟩
  rw [het]
  rfl

/-! ## C2 -/

/-- C2: the handler fails with the 404 not-recognized error exactly when no
catalog pattern matches the message and the AI classification step raises
(setup_gemini raising on the credential included); whenever a catalog
pattern matches, the request succeeds and never returns 404. -/
theorem C2_not_found_iff
    (env : Option String) (aiC : Except Unit ClassifyResult)
    (aiR : Except Unit (List LearningResource)) (aiI : Option (List String × List String))
    (store : Store) (input : ErrorInput) (now : String) :
    ((analyze_error env aiC aiR aiI store input now =
        Except.error { status_code := 404,
                       detail := "Error pattern not recognized and failed to analyze with Gemini" }) ↔
      (matchCatalog input.error_message = none ∧
        ((∃ e, setup_gemini env = Except.error e) ∨ aiC = Except.error ()))) ∧
    ((matchCatalog input.error_message).isSome = true →
      ∃ r : ErrorResponse × Store,
        analyze_error env aiC aiR aiI store input now = Except.ok r) := by
  constructor
  · rcases hcat : matchCatalog input.error_message with _ | entry
    · rcases hsg : setup_gemini env with e | u
      · simp [analyze_error, hcat, hsg]
      · rcases haic : aiC with u2 | cr
        · cases u2
          simp [analyze_error, hcat, hsg, haic]
        · simp [analyze_error, hcat, hsg, haic]
    · simp [analyze_error, hcat]
  · intro hsome
    rcases hcat : matchCatalog input.error_message with _ | entry
    · rw [hcat] at hsome; simp at hsome
    · refine ⟨analyze_with_gemini env aiR aiI store input entry.error_type
        (handler_solutions entry input) entry.concepts now, ?_⟩
      simp [analyze_error, hcat]

/-- C2 witness: an unknown message with a failing classification oracle and a
missing credential yields exactly the 404 error. -/
theorem C2_not_found_iff_witness :
    analyze_error none (Except.error ()) (Except.error ()) none emptyStore
      { error_message := "totally unknown", code_context := none,
        language := "python", project_id := none } "t"
      = Except.error { status_code := 404,
                       detail := "Error pattern not recognized and failed to analyze with Gemini" } :=
  (C2_not_found_iff none (Except.error ()) (Except.error ()) none emptyStore
    { error_message := "totally unknown", code_context := none,
      language := "python", project_id := none } "t").1.mpr
    ⟨by decide, Or.inl ⟨_, rfl⟩⟩

/-! ## C3 -/

/-- C3 counterexample: with the AI credential absent entirely, a request whose
message matches a catalog entry is still served a response.  This refutes the
claim that a missing credential prevents the process from producing a
response for every request: setup_gemini is only invoked lazily inside
per-request try blocks, never at startup. -/
theorem C3_counterexample :
    ∃ r : ErrorResponse × Store,
      analyze_error none (Except.error ()) (Except.error ()) none emptyStore
        { error_message := "list index out of range", code_context := none,
          language := "python", project_id := some "p" } "2024-01-01T00:00:00" = Except.ok r :=
  ⟨_, rfl⟩

/-- C3 corrected: a missing credential is not a startup failure; setup_gemini
raises only when called during a request, and the exception is caught there:
a catalog-matched request is served the fallback response (one generic
learning resource, empty statistics, the history store untouched), while a
catalog-miss request fails with the 404 error. -/
theorem C3_missing_credential
    (aiC : Except Unit ClassifyResult) (aiR : Except Unit (List LearningResource))
    (aiI : Option (List String × List String)) (store : Store) (input : ErrorInput) (now : String) :
    ((matchCatalog input.error_message).isSome = true →
      ∃ r : ErrorResponse × Store,
        analyze_error none aiC aiR aiI store input now = Except.ok r ∧
        r.2 = store ∧
        r.1.learning_resources = some
          [ { title := "Understanding " ++ r.1.error_type,
              description := "Learn about common " ++ r.1.error_type ++ " issues",
              url := none, resource_type := "guide" } ] ∧
        r.1.statistics = some { frequency := none, common_contexts := none,
                                related_errors := none, last_occurrence := none }) ∧
    (matchCatalog input.error_message = none →
      analyze_error none aiC aiR aiI store input now =
        Except.error { status_code := 404,
                       detail := "Error pattern not recognized and failed to analyze with Gemini" }) := by
  constructor
  · intro hsome
    obtain ⟨entry, hcat⟩ := Option.isSome_iff_exists.mp hsome
    refine ⟨analyze_with_gemini none aiR aiI store input entry.error_type
      (handler_solutions entry input) entry.concepts now, ?_, ?_, ?_, ?_⟩
    · simp [analyze_error, hcat]
    · simp [analyze_with_gemini, setup_gemini]
    · simp [analyze_with_gemini, setup_gemini]
    · simp [analyze_with_gemini, setup_gemini]
  · intro hcat
    simp [analyze_error, hcat, setup_gemini]

/-- C3 witness for the amended claim: a KeyError request without credential. -/
theorem C3_missing_credential_witness :
    ∃ r : ErrorResponse × Store,
      analyze_error none (Except.error ()) (Except.error ()) none emptyStore
        { error_message := "KeyError: \x27cfg\x27", code_context := none,
          language := "python", project_id := some "proj" } "t1" = Except.ok r ∧
      r.2 = emptyStore ∧
      r.1.learning_resources = some
        [ { title := "Understanding " ++ r.1.error_type,
            description := "Learn about common " ++ r.1.error_type ++ " issues",
            url := none, resource_type := "guide" } ] ∧
      r.1.statistics = some { frequency := none, common_contexts := none,
                              related_errors := none, last_occurrence := none } :=
  (C3_missing_credential (Except.error ()) (Except.error ()) none emptyStore
    { error_message := "KeyError: \x27cfg\x27", code_context := none,
      language := "python", project_id := some "proj" } "t1").1 (by decide)

/-! ## C4 -/

/-- C4: when a catalog entry matches and the learning-resources call raises
(the oracle is in its error state), the request still succeeds and the
response carries exactly the three fixed fallback resources built from the
error type and the first concept of the entry. -/
theorem C4_resources_fallback
    (key : String) (hkey : (key == "") = false)
    (aiC : Except Unit ClassifyResult) (aiI : Option (List String × List String))
    (store : Store) (input : ErrorInput) (now : String) (entry : PatternEntry)
    (hmatch : matchCatalog input.error_message = some entry) :
    ∃ r : ErrorResponse × Store,
      analyze_error (some key) aiC (Except.error ()) aiI store input now = Except.ok r ∧
      r.1.learning_resources = some
        [ { title := "Understanding " ++ entry.error_type ++ " in Python",
            description := "Learn how to debug and prevent " ++ entry.error_type ++ " errors",
            url := none, resource_type := "article" },
          { title := "Common causes of " ++ entry.error_type,
            description := "Explore the most frequent mistakes that lead to " ++ entry.error_type,
            url := none, resource_type := "tutorial" },
          { title := "Best practices to avoid " ++ entry.concepts.headD "errors",
            description := "Preventive techniques for writing more robust code",
            url := none, resource_type := "guide" } ] := by
  refine ⟨analyze_with_gemini (some key) (Except.error ()) aiI store input entry.error_type
    (handler_solutions entry input) entry.concepts now, ?_, ?_⟩
  · simp [analyze_error, hmatch]
  · simp [analyze_with_gemini, setup_gemini, hkey, get_learning_resources]

/-- C4 witness: a ZeroDivisionError request with a raising resources call. -/
theorem C4_resources_fallback_witness :
    ∃ r : ErrorResponse × Store,
      analyze_error (some "k") (Except.error ()) (Except.error ()) none emptyStore
        { error_message := "ZeroDivisionError: division by zero", code_context := none,
          language := "python", project_id := none } "t" = Except.ok r ∧
      r.1.learning_resources = some
        [ { title := "Understanding ZeroDivisionError in Python",
            description := "Learn how to debug and prevent ZeroDivisionError errors",
            url := none, resource_type := "article" },
          { title := "Common causes of ZeroDivisionError",
            description := "Explore the most frequent mistakes that lead to ZeroDivisionError",
            url := none, resource_type := "tutorial" },
          { title := "Best practices to avoid division",
            description := "Preventive techniques for writing more robust code",
            url := none, resource_type := "guide" } ] := by
  have h := C4_resources_fallback "k" (by decide) (Except.error ()) none emptyStore
    { error_message := "ZeroDivisionError: division by zero", code_context := none,
      language := "python", project_id := none } "t"
    (ERROR_PATTERNS.get ⟨8, by decide⟩) (by rfl)
  exact h

/-! ## C5 -/

/-- C5: with a truthy (non-empty) project identifier, analyze_error_patterns
appends the occurrence record before computing statistics: the stored
history gains the current record, the reported frequency counts it (old
length plus one), and the reported last occurrence is the second-to-last
record of the post-append history, i.e. the last record of the previous
history: the previous occurrence timestamp when at least one previous
record exists, absent otherwise. -/
theorem C5_history_stats
    (store : Store) (etype msg : String) (ctx : Option String) (pid now : String)
    (aiI : Option (List String × List String)) (hpid : (pid == "") = false) :
    (analyze_error_patterns store etype msg ctx (some pid) now aiI).1 pid etype
        = store pid etype ++ [{ timestamp := now, error_message := msg, code_context := ctx }] ∧
    (analyze_error_patterns store etype msg ctx (some pid) now aiI).2.frequency
        = some ((store pid etype).length + 1) ∧
    (analyze_error_patterns store etype msg ctx (some pid) now aiI).2.last_occurrence
        = ((store pid etype).getLast?).map (fun r => r.timestamp) := by
  have happ : (appendRecord store pid etype
      { timestamp := now, error_message := msg, code_context := ctx }) pid etype
      = store pid etype ++ [{ timestamp := now, error_message := msg, code_context := ctx }] := by
    simp [appendRecord]
  refine ⟨?_, ?_, ?_⟩
  · simp [analyze_error_patterns, hpid, happ]
  · simp [analyze_error_patterns, hpid, happ]
  · rcases hold : store pid etype with _ | ⟨a, as⟩
    · simp [analyze_error_patterns, hpid, happ, hold]
    · simp [analyze_error_patterns, hpid, happ, hold, List.getLast?_eq_getElem?]
      refine ⟨(a :: as).get ⟨as.length, by simp⟩, ?_, rfl⟩
      rw [← List.cons_append]
      rw [List.getElem?_append_left (by simp)]
      exact List.getElem?_eq_getElem (by simp)

/-- C5 witness: two sequential same-project same-error-type calls from an
empty history; the second reports frequency 2 and the first call timestamp
as the last occurrence. -/
theorem C5_history_stats_witness :
    ((analyze_error_patterns
        (analyze_error_patterns emptyStore "NameError" "m1" none (some "p") "t1" none).1
        "NameError" "m2" none (some "p") "t2" none).2.frequency = some 2) ∧
    ((analyze_error_patterns
        (analyze_error_patterns emptyStore "NameError" "m1" none (some "p") "t1" none).1
        "NameError" "m2" none (some "p") "t2" none).2.last_occurrence = some "t1") := by
  obtain ⟨h1app, h1f, h1l⟩ := C5_history_stats emptyStore "NameError" "m1" none "p" "t1" none (by decide)
  obtain ⟨h2app, h2f, h2l⟩ := C5_history_stats
    (analyze_error_patterns emptyStore "NameError" "m1" none (some "p") "t1" none).1
    "NameError" "m2" none "p" "t2" none (by decide)
  constructor
  · rw [h2f, h1app]
    simp [emptyStore]
  · rw [h2l, h1app]
    simp [emptyStore]

/-! ## C6 and C10 -/

/-- Membership in the similar-variable list, unfolded to its three
conditions over the snippet token set. -/
theorem mem_similar_vars (ctx u v : String) :
    v ∈ similar_vars ctx u ↔
      (v ∈ all_variables ctx ∧ v ≠ u ∧
        ((v.length : Int) - (u.length : Int)).natAbs ≤ 2 ∧
        char_differences v u ≤ 2) := by
  simp [similar_vars, List.mem_filter, and_assoc, beq_eq_false_iff_ne]

/-- C6: for the NameError category, a candidate is reported similar exactly
when it is a snippet token different from the undefined name, its length
differs by at most 2, and its positional zip-compare mismatch count is at
most 2; when at least one similar candidate exists, the analysis reports
the typo issue naming the undefined name, and a fix naming the first
similar candidate and listing all of them. -/
theorem C6_typo_heuristic (msg ctx u v : String)
    (hu : undefined_var_search msg = some u) (hctx : (ctx == "") = false) :
    (v ∈ similar_vars ctx u ↔
      (v ∈ all_variables ctx ∧ v ≠ u ∧
        ((v.length : Int) - (u.length : Int)).natAbs ≤ 2 ∧
        char_differences v u ≤ 2)) ∧
    (similar_vars ctx u ≠ [] →
      analyze_code_context "NameError" msg (some ctx) =
        some { specific_issue := some ("You might have a typo in variable name \x27" ++ u ++ "\x27"),
               specific_fix := some ("Did you mean \x27" ++ (similar_vars ctx u).headD "" ++
                 "\x27? Similar variables found: " ++ joinSep (", ") (similar_vars ctx u)) }) := by
  constructor
  · exact mem_similar_vars ctx u v
  · intro hne
    have hisEmpty : (similar_vars ctx u).isEmpty = false := List.isEmpty_eq_false.mpr hne
    simp [analyze_code_context, hctx, hu, hisEmpty]

/-- C6 witness: the specification example, where foob is among the reported
similar variables and the typo solution strings are produced. -/
theorem C6_typo_heuristic_witness :
    ("foob" ∈ similar_vars ("foo = 1\nfoob = 2") "foo") ∧
    analyze_code_context "NameError" ("name \x27foo\x27 is not defined") (some ("foo = 1\nfoob = 2")) =
      some { specific_issue := some ("You might have a typo in variable name \x27foo\x27"),
             specific_fix := some ("Did you mean \x271\x27? Similar variables found: 1, foob, 2") } := by
  have h := C6_typo_heuristic ("name \x27foo\x27 is not defined") ("foo = 1\nfoob = 2") "foo" "foob"
    (by rfl) (by decide)
  refine ⟨h.1.mpr (by decide), ?_⟩
  rw [h.2 (by decide)]
  decide

/-- C10: the mismatch count is taken only over the zipped common prefix, so
it never exceeds the shorter of the two lengths; consequently a snippet
token distinct from the undefined name whose length is within 2 and whose
mismatch count over the overlap is at most 2 is reported similar -
including unrelated short tokens whose overlap is almost empty. -/
theorem C10_overlap_only (ctx u v : String)
    (hv : v ∈ all_variables ctx) (hne : v ≠ u)
    (hlen : ((v.length : Int) - (u.length : Int)).natAbs ≤ 2) :
    char_differences v u ≤ min v.length u.length ∧
    (char_differences v u ≤ 2 → v ∈ similar_vars ctx u) := by
  constructor
  · calc char_differences v u ≤ (v.toList.zip u.toList).length := List.length_filter_le _ _
      _ = min v.length u.length := by rw [List.length_zip]; rfl
  · intro hd
    exact (mem_similar_vars ctx u v).mpr ⟨hv, hne, hlen, hd⟩

/-- C10 witness: the numeric-literal token 1 of the snippet qualifies as
similar to the undefined name foo (length difference 2, one mismatched
position over the single-character overlap). -/
theorem C10_overlap_only_witness :
    char_differences "1" "foo" ≤ min ("1".length) ("foo".length) ∧
    ("1" ∈ similar_vars ("foo = 1\nfoob = 2") "foo") := by
  have h := C10_overlap_only ("foo = 1\nfoob = 2") "foo" "1" (by decide) (by decide) (by decide)
  exact ⟨h.1, h.2 (by decide)⟩

/-! ## C7, C8 and C9 -/

/-- The inner subscript loop of the IndexError heuristic: either no subscript
of the list reaches the estimate and the analysis is unchanged, or the loop
ends on the issue of some offending subscript. -/
theorem foldIssue_cases (name : String) (n : Nat) (idxs : List Nat) :
    ∀ ca : ContextAnalysis,
      (idxs.foldl (fun ca2 index => if n ≤ index then indexIssue name index n else ca2) ca = ca ∧
        ∀ i ∈ idxs, ¬ n ≤ i) ∨
      (∃ i ∈ idxs, n ≤ i ∧
        idxs.foldl (fun ca2 index => if n ≤ index then indexIssue name index n else ca2) ca
          = indexIssue name i n) := by
  induction idxs with
  | nil => intro ca; left; exact ⟨rfl, by simp⟩
  | cons i is ih =>
    intro ca
    by_cases h : n ≤ i
    · rcases ih (indexIssue name i n) with ⟨heq, hall⟩ | ⟨j, hj, hnj, heq⟩
      · right
        refine ⟨i, by simp, h, ?_⟩
        simp only [List.foldl_cons]
        rw [if_pos h]
        exact heq
      · right
        refine ⟨j, by simp [hj], hnj, ?_⟩
        simp only [List.foldl_cons]
        rw [if_pos h]
        exact heq
    · rcases ih ca with ⟨heq, hall⟩ | ⟨j, hj, hnj, heq⟩
      · left
        constructor
        · simp only [List.foldl_cons]
          rw [if_neg h]
          exact heq
        · intro x hx
          rcases List.mem_cons.mp hx with hx | hx
          · rw [hx]; exact h
          · exact hall x hx
      · right
        refine ⟨j, List.mem_cons_of_mem _ hj, hnj, ?_⟩
        simp only [List.foldl_cons]
        rw [if_neg h]
        exact heq

/-- The outer loop of the IndexError heuristic over the declared lists:
either no subscript of any declared list reaches its estimate and the
analysis is unchanged, or the loop ends on the issue of some offending
list/subscript pair. -/
theorem indexAnalysis_cases (ctx : String) (l : List (String × String)) :
    ∀ ca : ContextAnalysis,
      (l.foldl (indexFoldOne ctx) ca = ca ∧
        ∀ p ∈ l, ∀ i ∈ index_matches p.1 ctx, ¬ list_length_estimate p.2 ≤ i) ∨
      (∃ p ∈ l, ∃ i ∈ index_matches p.1 ctx, list_length_estimate p.2 ≤ i ∧
        l.foldl (indexFoldOne ctx) ca = indexIssue p.1 i (list_length_estimate p.2)) := by
  induction l with
  | nil => intro ca; left; exact ⟨rfl, by simp⟩
  | cons p ps ih =>
    intro ca
    rcases foldIssue_cases p.1 (list_length_estimate p.2) (index_matches p.1 ctx) ca with
      ⟨heq, hall⟩ | ⟨i, hi, hni, heq⟩
    · have hstep : indexFoldOne ctx ca p = ca := heq
      rcases ih ca with ⟨heq2, hall2⟩ | ⟨q, hq, i, hi, hni, heq2⟩
      · left
        constructor
        · simp only [List.foldl_cons]
          rw [hstep]
          exact heq2
        · intro q hq i hi
          rcases List.mem_cons.mp hq with h1 | h1
          · rw [h1] at hi ⊢
            exact hall i hi
          · exact hall2 q h1 i hi
      · right
        refine ⟨q, List.mem_cons_of_mem _ hq, i, hi, hni, ?_⟩
        simp only [List.foldl_cons]
        rw [hstep]
        exact heq2
    · have hstep : indexFoldOne ctx ca p = indexIssue p.1 i (list_length_estimate p.2) := heq
      rcases ih (indexIssue p.1 i (list_length_estimate p.2)) with ⟨heq2, hall2⟩ | ⟨q, hq, j, hj, hnj, heq2⟩
      · right
        refine ⟨p, List.mem_cons_self _ _, i, hi, hni, ?_⟩
        simp only [List.foldl_cons]
        rw [hstep]
        exact heq2
      · right
        refine ⟨q, List.mem_cons_of_mem _ hq, j, hj, hnj, ?_⟩
        simp only [List.foldl_cons]
        rw [hstep]
        exact heq2

/-- C7: the IndexError heuristic estimates each declared list length as the
number of comma-separated pieces of its bracket text, scans every literal
integer subscript of the list name, and produces an out-of-range issue
exactly when some subscript reaches the estimate; the produced strings name
the offending index and list; on the specification example it reports index
3 out of range for the 3-element list. -/
theorem C7_index_heuristic (ctx : String) :
    ((∃ p ∈ list_matches ctx, ∃ i ∈ index_matches p.1 ctx, list_length_estimate p.2 ≤ i) ↔
      (indexContextAnalysis ctx).specific_issue ≠ none) ∧
    (∀ s, (indexContextAnalysis ctx).specific_issue = some s →
      ∃ p ∈ list_matches ctx, ∃ i ∈ index_matches p.1 ctx, list_length_estimate p.2 ≤ i ∧
        s = "Index " ++ toString i ++ " is out of range for list \x27" ++ p.1 ++ "\x27" ∧
        (indexContextAnalysis ctx).specific_fix =
          some ("The list \x27" ++ p.1 ++ "\x27 appears to have " ++ toString (list_length_estimate p.2)
            ++ " items (indices 0-" ++ toString (list_length_estimate p.2 - 1) ++ ")")) ∧
    (analyze_code_context "IndexError" ("list index out of range")
        (some ("my_list = [1, 2, 3]\nx = my_list[3]")) =
      some { specific_issue := some ("Index 3 is out of range for list \x27my_list\x27"),
             specific_fix := some ("The list \x27my_list\x27 appears to have 3 items (indices 0-2)") }) := by
  have hic : indexContextAnalysis ctx =
      (list_matches ctx).foldl (indexFoldOne ctx) { specific_issue := none, specific_fix := none } := rfl
  refine ⟨⟨?_, ?_⟩, ?_, by decide⟩
  · intro hex
    rcases indexAnalysis_cases ctx (list_matches ctx) { specific_issue := none, specific_fix := none } with
      ⟨heq, hall⟩ | ⟨p, hp, i, hi, hni, heq⟩
    · exfalso
      rcases hex with ⟨p, hp, i, hi, hni⟩
      exact hall p hp i hi hni
    · rw [hic, heq]
      simp [indexIssue]
  · intro hne
    rcases indexAnalysis_cases ctx (list_matches ctx) { specific_issue := none, specific_fix := none } with
      ⟨heq, hall⟩ | ⟨p, hp, i, hi, hni, heq⟩
    · exfalso
      apply hne
      rw [hic, heq]
    · exact ⟨p, hp, i, hi, hni⟩
  · intro s hs
    rcases indexAnalysis_cases ctx (list_matches ctx) { specific_issue := none, specific_fix := none } with
      ⟨heq, hall⟩ | ⟨p, hp, i, hi, hni, heq⟩
    · rw [hic, heq] at hs
      exact absurd hs (by simp)
    · refine ⟨p, hp, i, hi, hni, ?_, ?_⟩
      · rw [hic, heq] at hs
        have := hs.symm
        simpa [indexIssue] using this
      · rw [hic, heq]
        rfl

/-- C7 witness: the specification example contains an offending subscript. -/
theorem C7_index_heuristic_witness :
    (indexContextAnalysis ("my_list = [1, 2, 3]\nx = my_list[3]")).specific_issue ≠ none :=
  (C7_index_heuristic ("my_list = [1, 2, 3]\nx = my_list[3]")).1.mp (by decide)

/-- C8: whenever a catalog entry matches, the request succeeds with a
non-empty solutions list, and when the context heuristic reports a specific
issue on a truthy snippet the synthesized context solution sits at index 0
with confidence 0.95 (stored as 95 hundredths), followed by the canned
entry solutions. -/
theorem C8_solutions_front
    (env : Option String) (aiC : Except Unit ClassifyResult)
    (aiR : Except Unit (List LearningResource)) (aiI : Option (List String × List String))
    (store : Store) (input : ErrorInput) (now : String) (entry : PatternEntry)
    (hmatch : matchCatalog input.error_message = some entry) :
    ∃ r : ErrorResponse × Store,
      analyze_error env aiC aiR aiI store input now = Except.ok r ∧
      r.1.solutions ≠ [] ∧
      (∀ ca issue, strTruthy input.code_context = true →
        analyze_code_context entry.error_type input.error_message input.code_context = some ca →
        ca.specific_issue = some issue →
        r.1.solutions =
          { fix := ca.specific_fix.getD "", explanation := issue, confidence := 95,
            code_example := "# Based on your specific code:\n" ++ input.code_context.getD "" }
            :: entry.solutions) := by
  have hmem : entry ∈ ERROR_PATTERNS := List.mem_of_find?_eq_some hmatch
  have hne : entry.solutions ≠ [] := ERROR_PATTERNS_solutions_ne_nil entry hmem
  have hfields := analyze_with_gemini_fields env aiR aiI store input entry.error_type
    (handler_solutions entry input) entry.concepts now
  refine ⟨analyze_with_gemini env aiR aiI store input entry.error_type
    (handler_solutions entry input) entry.concepts now, ?_, ?_, ?_⟩
  · simp [analyze_error, hmatch]
  · rw [hfields.2.1]
    exact handler_solutions_ne_nil entry input hne
  · intro ca issue hct hca hissue
    rw [hfields.2.1]
    exact handler_solutions_insert entry input ca issue hct hca hissue

/-- C8 witness: the IndexError example with snippet; the context solution is
at the front with confidence 95 hundredths. -/
theorem C8_solutions_front_witness :
    ∃ r : ErrorResponse × Store,
      analyze_error (some "k") (Except.error ()) (Except.error ()) none emptyStore
        { error_message := "list index out of range",
          code_context := some ("my_list = [1, 2, 3]\nx = my_list[3]"),
          language := "python", project_id := none } "t" = Except.ok r ∧
      r.1.solutions ≠ [] ∧
      r.1.solutions.head? = some
        { fix := "The list \x27my_list\x27 appears to have 3 items (indices 0-2)",
          explanation := "Index 3 is out of range for list \x27my_list\x27",
          confidence := 95,
          code_example := "# Based on your specific code:\nmy_list = [1, 2, 3]\nx = my_list[3]" } := by
  obtain ⟨r, hr, hne, hfront⟩ := C8_solutions_front (some "k") (Except.error ()) (Except.error ()) none
    emptyStore
    { error_message := "list index out of range",
      code_context := some ("my_list = [1, 2, 3]\nx = my_list[3]"),
      language := "python", project_id := none } "t"
    (ERROR_PATTERNS.get ⟨2, by decide⟩) (by rfl)
  refine ⟨r, hr, hne, ?_⟩
  rw [hfront
    { specific_issue := some ("Index 3 is out of range for list \x27my_list\x27"),
      specific_fix := some ("The list \x27my_list\x27 appears to have 3 items (indices 0-2)") }
    ("Index 3 is out of range for list \x27my_list\x27") (by decide) (by decide) (by decide)]
  rfl

/-- C9: an empty-bracket declaration name = [] is estimated to have length 1
because splitting the empty bracket text on commas yields one empty piece;
hence when every declared list of the snippet has empty bracket text and
every found subscript is the literal 0, no subscript is flagged and no
issue is produced, although such lists have zero elements. -/
theorem C9_empty_brackets (ctx : String)
    (hall : ∀ p ∈ list_matches ctx, p.2 = "")
    (hidx : ∀ p ∈ list_matches ctx, ∀ i ∈ index_matches p.1 ctx, i = 0) :
    list_length_estimate "" = 1 ∧ (indexContextAnalysis ctx).specific_issue = none := by
  refine ⟨rfl, ?_⟩
  rcases indexAnalysis_cases ctx (list_matches ctx) { specific_issue := none, specific_fix := none } with
    ⟨heq, _⟩ | ⟨p, hp, i, hi, hni, heq⟩
  · rw [show indexContextAnalysis ctx =
      ({ specific_issue := none, specific_fix := none } : ContextAnalysis) from heq]
  · exfalso
    have h2 := hall p hp
    have h0 := hidx p hp i hi
    rw [h2, h0] at hni
    exact absurd hni (by decide)

/-- C9 witness: an empty list declaration subscripted at 0 is not flagged. -/
theorem C9_empty_brackets_witness :
    list_length_estimate "" = 1 ∧
    (indexContextAnalysis ("a = []\nx = a[0]")).specific_issue = none :=
  C9_empty_brackets ("a = []\nx = a[0]") (by decide) (by decide)
